import Mathlib

/-!
Verification of the OpenStack metrics analysis and forecasting engine
(`analyze_metrics.py` and `forecast_usage.py`).

Modelling conventions:
* Real-valued columns are idealized as rationals (`ℚ`).
* Where NaN and infinity behaviour of pandas and numpy matters, values are
  modelled by `PFloat`, an extended-rational type with explicit `nan` and
  signed `inf`, whose arithmetic follows IEEE-754 special-value rules
  (division of a nonzero finite value by zero produces a signed infinity,
  `0 / 0` produces `nan`, `nan` propagates through every operation, and
  every ordered comparison against `nan` is false).
* A pandas sample standard deviation (ddof = 1) of a window with at most
  one element is NaN; this is modelled by returning `none` for the sample
  variance of such a window, and every comparison involving that standard
  deviation is then false, as in pandas.  Comparisons of the form
  `v > m + 2·sqrt var` are encoded equivalently over `ℚ` by sign analysis
  and squaring, so every definition stays executable.
-/

/-- Extended rational value mirroring the special values of a 64-bit float:
`nan`, signed infinity `inf pos`, or a finite rational `fin q`. -/
inductive PFloat where
  | nan : PFloat
  | inf (pos : Bool) : PFloat
  | fin (q : ℚ) : PFloat
  deriving DecidableEq, Repr

/-- IEEE-style addition on `PFloat`: `nan` propagates, opposite infinities
give `nan`, an infinity absorbs any finite value. -/
def pfAdd : PFloat → PFloat → PFloat
  | .nan, _ => .nan
  | _, .nan => .nan
  | .inf p, .inf q => if p = q then .inf p else .nan
  | .inf p, .fin _ => .inf p
  | .fin _, .inf p => .inf p
  | .fin a, .fin b => .fin (a + b)

/-- IEEE-style multiplication on `PFloat`: `nan` propagates, infinity times
zero gives `nan`, signs multiply. -/
def pfMul : PFloat → PFloat → PFloat
  | .nan, _ => .nan
  | _, .nan => .nan
  | .inf p, .inf q => .inf (p == q)
  | .inf p, .fin a => if a = 0 then .nan else .inf (p == decide (0 < a))
  | .fin a, .inf p => if a = 0 then .nan else .inf (p == decide (0 < a))
  | .fin a, .fin b => .fin (a * b)

/-- IEEE-style division on `PFloat`: `nan` propagates, `inf / inf = nan`,
a finite value divided by infinity is zero, a nonzero finite value divided
by zero is a signed infinity, and `0 / 0 = nan`.  This is exactly the
behaviour of pandas and numpy float division. -/
def pfDiv : PFloat → PFloat → PFloat
  | .nan, _ => .nan
  | _, .nan => .nan
  | .inf _, .inf _ => .nan
  | .inf p, .fin q => .inf (p == decide (0 ≤ q))
  | .fin _, .inf _ => .fin 0
  | .fin a, .fin b =>
      if b = 0 then (if a = 0 then .nan else .inf (decide (0 < a)))
      else .fin (a / b)

/-- Absolute value on `PFloat`. -/
def pfAbs : PFloat → PFloat
  | .nan => .nan
  | .inf _ => .inf true
  | .fin a => .fin |a|

/-- Model of `Series.fillna(0)` applied to a scalar: `nan` becomes `0`;
infinities and finite values are untouched (pandas `fillna` only replaces
NaN, never infinity). -/
def pfFillna0 : PFloat → PFloat
  | .nan => .fin 0
  | x => x

/-- Sum of a list of `PFloat`, as numpy reduces it. -/
def pfSum (l : List PFloat) : PFloat := l.foldl pfAdd (.fin 0)

/-- Model of `np.mean`: sum divided by length. -/
def pfMean (l : List PFloat) : PFloat := pfDiv (pfSum l) (.fin (l.length : ℚ))

/-- One metrics observation for one node at one timestamp, as read from the
metrics CSV (`load_metrics`).  Timestamps are idealized as integers under
the usual order; resource columns are idealized rationals. -/
structure Sample where
  timestamp : ℤ
  node : String
  vcpus_used : ℚ
  vcpus_total : ℚ
  memory_used_mb : ℚ
  memory_total_mb : ℚ
  disk_used_gb : ℚ
  disk_total_gb : ℚ
  instances : ℚ
  deriving DecidableEq, Repr

/-- Shared body of the three derived utilization columns, from
`calculate_utilization_metrics` and `UsageForecaster.load_metrics`:
`(df[used] / df[total] * 100).fillna(0)`. -/
def utilizationPct (used total : ℚ) : PFloat :=
  pfFillna0 (pfMul (pfDiv (.fin used) (.fin total)) (.fin 100))

/-- Derived column `cpu_utilization = (vcpus_used / vcpus_total * 100).fillna(0)`. -/
def cpu_utilization (s : Sample) : PFloat :=
  utilizationPct s.vcpus_used s.vcpus_total

/-- Derived column `memory_utilization = (memory_used_mb / memory_total_mb * 100).fillna(0)`. -/
def memory_utilization (s : Sample) : PFloat :=
  utilizationPct s.memory_used_mb s.memory_total_mb

/-- Derived column `disk_utilization = (disk_used_gb / disk_total_gb * 100).fillna(0)`. -/
def disk_utilization (s : Sample) : PFloat :=
  utilizationPct s.disk_used_gb s.disk_total_gb

/-- In-sample MAPE from `UsageForecaster.forecast_metric` line 148:
`np.mean(np.abs((y - forecast) / y)) * 100` over the merged historical
points, each point a pair `(y, forecast)` of actual and in-sample
prediction.  There is no guard for `y = 0`. -/
def mape (pts : List (ℚ × ℚ)) : PFloat :=
  pfMul (pfMean (pts.map fun p => pfAbs (pfDiv (.fin (p.1 - p.2)) (.fin p.1))))
    (.fin 100)

/-- Risk tier used in the node summary. -/
inductive Risk where
  | High : Risk
  | Medium : Risk
  | Low : Risk
  deriving DecidableEq, Repr

/-- Per-metric risk from `generate_node_summary`:
`High if x > 80 else Medium if x > 60 else Low` applied to the mean
utilization of the metric. -/
def riskOf (x : ℚ) : Risk :=
  if x > 80 then .High else if x > 60 then .Medium else .Low

/-- Overall risk from `generate_node_summary`: `High` if any of the three
per-metric risks is `High`, else `Medium` if any is `Medium`, else
`Low`. -/
def overall_risk (c m d : Risk) : Risk :=
  if c = .High ∨ m = .High ∨ d = .High then .High
  else if c = .Medium ∨ m = .Medium ∨ d = .Medium then .Medium
  else .Low

/-- Numeric severity of a risk tier, for stating that the overall risk is
the maximum of the three per-metric risks. -/
def riskSeverity : Risk → ℕ
  | .Low => 0
  | .Medium => 1
  | .High => 2

/-- Severity tier of a forecast-driven capacity recommendation. -/
inductive Severity where
  | Critical : Severity
  | High : Severity
  | Medium : Severity
  deriving DecidableEq, Repr

/-- Model of pandas `Series.max()` on the (nonempty in practice) forecast
series of one (node, metric) pair. -/
def seriesMax : List ℚ → ℚ
  | [] => 0
  | x :: xs => xs.foldl max x

/-- Model of pandas `Series.mean()`: sum divided by length (`0` for the
empty list, which does not occur in practice). -/
def listMean (l : List ℚ) : ℚ := l.sum / l.length

/-- Severity decision of `generate_capacity_recommendations` for one
(node, metric) pair over its future forecast values: `Critical` when
`max_forecast > 90`, else `High` when `max_forecast > 80`, else `Medium`
when `avg_forecast > 70`, else no recommendation.  The source appends at
most one recommendation record per pair because the three tests form one
`if`/`elif`/`elif` chain. -/
def recOfSeries (l : List ℚ) : Option Severity :=
  if seriesMax l > 90 then some .Critical
  else if seriesMax l > 80 then some .High
  else if listMean l > 70 then some .Medium
  else none

/-- Trailing window of `rolling(window := w, min_periods := 1)` ending at
index `i`: the last `min w (i+1)` elements among the first `i+1`. -/
def rollingWindow (xs : List ℚ) (w i : ℕ) : List ℚ :=
  (xs.take (i + 1)).drop (i + 1 - w)

/-- Sample variance with `ddof = 1`, as pandas `Series.std` squares to;
`none` models the NaN that pandas returns on a window with at most one
element. -/
def sampleVar? (l : List ℚ) : Option ℚ :=
  if l.length ≤ 1 then none
  else some (((l.map fun x => (x - listMean l) ^ 2).sum) / (l.length - 1 : ℕ))

/-- Anomaly test of `generate_anomaly_detection`:
`value > mean + 2·std ∨ value < mean - 2·std` with `std = sqrt var`,
encoded exactly over `ℚ` by sign analysis and squaring
(`v > m + 2·sqrt var ↔ v - m > 0 ∧ (v - m)^2 > 4·var` for `var ≥ 0`).
When the rolling std is NaN (`var? = none`) both pandas comparisons are
false, hence no anomaly. -/
def isAnomaly (v m : ℚ) (var? : Option ℚ) : Bool :=
  match var? with
  | none => false
  | some var =>
      (decide (v - m > 0) && decide ((v - m) ^ 2 > 4 * var)) ||
      (decide (m - v > 0) && decide ((m - v) ^ 2 > 4 * var))

/-- Indices flagged as anomalies for one utilization series of one node,
using the rolling window size `min 24 n` of the source. -/
def anomalousIndices (xs : List ℚ) : List ℕ :=
  let w := min 24 xs.length
  (List.range xs.length).filter fun i =>
    isAnomaly (xs.getD i 0) (listMean (rollingWindow xs w i))
      (sampleVar? (rollingWindow xs w i))

/-- Recommendation messages of `generate_capacity_analysis`. -/
def cpuHighMsg : String := "Consider adding more CPU capacity or migrating instances"

/-- Message for underutilized CPU. -/
def cpuLowMsg : String := "CPU capacity is underutilized - consider consolidating instances"

/-- Message for overutilized memory. -/
def memHighMsg : String := "Consider adding more memory or migrating instances"

/-- Message for underutilized memory. -/
def memLowMsg : String := "Memory capacity is underutilized - consider consolidating instances"

/-- Message for overutilized disk. -/
def diskHighMsg : String := "Consider adding more disk storage or cleaning up unused data"

/-- Message for underutilized disk. -/
def diskLowMsg : String := "Disk capacity is underutilized"

/-- Fallback message when no threshold fired. -/
def balancedMsg : String := "Node capacity is well-balanced"

/-- One `if`/`elif` pair of `generate_capacity_analysis`: over 80 percent
adds the high message, under 20 percent adds the low message, otherwise
nothing for that resource. -/
def resourceRecs (util : ℚ) (highMsg lowMsg : String) : List String :=
  if util > 80 then [highMsg] else if util < 20 then [lowMsg] else []

/-- Concatenation of the three independent per-resource checks of
`generate_capacity_analysis`, in source order. -/
def thresholdRecs (cpu mem dsk : ℚ) : List String :=
  resourceRecs cpu cpuHighMsg cpuLowMsg ++
    resourceRecs mem memHighMsg memLowMsg ++
    resourceRecs dsk diskHighMsg diskLowMsg

/-- Per-node recommendation list of `generate_capacity_analysis`: the three
per-resource checks run in sequence appending to one list, and the
well-balanced message is appended exactly when that list stayed empty. -/
def nodeRecommendations (cpu mem dsk : ℚ) : List String :=
  if thresholdRecs cpu mem dsk = [] then [balancedMsg] else thresholdRecs cpu mem dsk

/-- Distinct node names of the loaded metrics, in order of first
appearance (the pandas unique over the node column). -/
def nodesOf (df : List Sample) : List String := (df.map Sample.node).dedup

/-- Model of the pandas groupby-last over the node column: for each distinct node, the last
row of that node in dataframe order.  (pandas sorts the group keys, which
none of the verified facts depend on, since they concern membership and
order-independent sums.) -/
def lastPerNode (df : List Sample) : List Sample :=
  (nodesOf df).filterMap fun n => (df.filter fun s => s.node == n).getLast?

/-- Python `round` to an integer: round half to even. -/
def roundHalfEven (q : ℚ) : ℤ :=
  if q - ⌊q⌋ < 1 / 2 then ⌊q⌋
  else if q - ⌊q⌋ > 1 / 2 then ⌊q⌋ + 1
  else if ⌊q⌋ % 2 = 0 then ⌊q⌋ else ⌊q⌋ + 1

/-- Python `round(x, 2)` on an idealized rational. -/
def round2 (q : ℚ) : ℚ := (roundHalfEven (q * 100) : ℚ) / 100

/-- Cluster CPU utilization of `generate_capacity_analysis`:
`round(used_vcpus / total_vcpus * 100, 2)` where the numerator and
denominator are the column sums over the groupby-last row set `latest_data`. -/
def clusterCpuUtilization (df : List Sample) : ℚ :=
  let latest := lastPerNode df
  round2 ((latest.map Sample.vcpus_used).sum / (latest.map Sample.vcpus_total).sum * 100)

/-- Cluster memory utilization: `round(used_memory / total_memory * 100, 2)`. -/
def clusterMemoryUtilization (df : List Sample) : ℚ :=
  let latest := lastPerNode df
  round2 ((latest.map Sample.memory_used_mb).sum / (latest.map Sample.memory_total_mb).sum * 100)

/-- Cluster disk utilization: `round(used_disk / total_disk * 100, 2)`. -/
def clusterDiskUtilization (df : List Sample) : ℚ :=
  let latest := lastPerNode df
  round2 ((latest.map Sample.disk_used_gb).sum / (latest.map Sample.disk_total_gb).sum * 100)

/-- Written from the words of the specification, for the refinement
comparison of claim C7: cluster `cpu_utilization` is
`sum(vcpus_used) / sum(vcpus_total) * 100` taken over a given set of
one-sample-per-node rows, at the stated two-decimal rounding precision. -/
def specClusterCpu (latest : List Sample) : ℚ :=
  round2 ((latest.map Sample.vcpus_used).sum / (latest.map Sample.vcpus_total).sum * 100)

/-- Spec formula for cluster memory utilization, analogous to
`specClusterCpu`. -/
def specClusterMem (latest : List Sample) : ℚ :=
  round2 ((latest.map Sample.memory_used_mb).sum / (latest.map Sample.memory_total_mb).sum * 100)

/-- Spec formula for cluster disk utilization, analogous to
`specClusterCpu`. -/
def specClusterDisk (latest : List Sample) : ℚ :=
  round2 ((latest.map Sample.disk_used_gb).sum / (latest.map Sample.disk_total_gb).sum * 100)

/-- Inlier filter of `prepare_prophet_data`: keep
`mean - 3·std ≤ y ≤ mean + 3·std`, i.e. `(y - mean)^2 ≤ 9·var`, where mean
and sample std are taken over the series after `dropna`.  A NaN std (at
most one point after `dropna`) makes both pandas comparisons false, so
nothing is kept. -/
def keepInlier (m : ℚ) (var? : Option ℚ) (y : ℚ) : Bool :=
  match var? with
  | none => false
  | some var => decide ((y - m) ^ 2 ≤ 9 * var)

/-- Points surviving the preprocessing of `prepare_prophet_data`: drop the
missing values, then discard points more than three standard deviations
from the per-series mean. -/
def inlierPoints (rows : List (Option ℚ)) : List ℚ :=
  let d := rows.filterMap id
  d.filter (keepInlier (listMean d) (sampleVar? d))

/-- Model of `prepare_prophet_data` for one (node, metric) pair:
`rows` is the metric column of the rows of that node (a missing value per
missing entry).  Returns `none` when the node has fewer than 10 rows, or
when fewer than 5 points survive dropna plus outlier removal; otherwise
the surviving points. -/
def prepare_prophet_data (rows : List (Option ℚ)) : Option (List ℚ) :=
  if rows.length < 10 then none
  else if (inlierPoints rows).length < 5 then none
  else some (inlierPoints rows)

/-- Model of `forecast_metric` gating: the Prophet fit (abstracted as
`fit`) runs only when `prepare_prophet_data` succeeds; otherwise the pair
is skipped by returning `none`, which `generate_all_forecasts` drops
without failing. -/
def forecast_metric {α : Type} (fit : List ℚ → α) (rows : List (Option ℚ)) : Option α :=
  (prepare_prophet_data rows).map fit

/-- One hourly resample bucket of `generate_time_series_analysis`: the
bucket mean of each utilization column, `none` when the bucket holds no
sample (pandas resample produces a NaN mean there). -/
structure HourBucket where
  cpu_utilization : Option ℚ
  memory_utilization : Option ℚ
  disk_utilization : Option ℚ
  deriving DecidableEq, Repr

/-- Trend record stored per node by `generate_time_series_analysis`. -/
structure Trend where
  cpu_trend : ℚ
  memory_trend : ℚ
  disk_trend : ℚ
  data_points : ℕ
  deriving DecidableEq, Repr

/-- Closed-form ordinary-least-squares slope of `ys` against
`x = 0, 1, ..., n-1`, the value `np.polyfit(x, ys, 1)[0]` computes. -/
def olsSlope (ys : List ℚ) : ℚ :=
  let n : ℚ := ys.length
  let xs : List ℚ := (List.range ys.length).map fun i => (i : ℚ)
  let sx := xs.sum
  let sy := ys.sum
  let sxy := ((xs.zip ys).map fun p => p.1 * p.2).sum
  let sxx := (xs.map fun x => x ^ 2).sum
  (n * sxy - sx * sy) / (n * sxx - sx ^ 2)

/-- Trend entry computed for one node from its hourly buckets: each
utilization series is gap-filled with `0` (`fillna(0)`) before the
least-squares fit, and `data_points` is the bucket count. -/
def trendOf (bs : List HourBucket) : Trend :=
  { cpu_trend := olsSlope (bs.map fun b => b.cpu_utilization.getD 0)
    memory_trend := olsSlope (bs.map fun b => b.memory_utilization.getD 0)
    disk_trend := olsSlope (bs.map fun b => b.disk_utilization.getD 0)
    data_points := bs.length }

/-- Model of the trend map of `generate_time_series_analysis`: one entry
per node whose hourly series has more than one bucket
(`if len(node_data) > 1`), keyed by node name. -/
def generate_time_series_analysis (series : List (String × List HourBucket)) :
    List (String × Trend) :=
  series.filterMap fun p => if 1 < p.2.length then some (p.1, trendOf p.2) else none

/-- A sample whose CPU total is zero while its used count is positive. -/
def zeroTotalSample : Sample :=
  { timestamp := 0, node := "node-a", vcpus_used := 4, vcpus_total := 0,
    memory_used_mb := 100, memory_total_mb := 200, disk_used_gb := 10,
    disk_total_gb := 100, instances := 1 }

/-- A sample with ordinary nonzero totals. -/
def okSample : Sample :=
  { timestamp := 0, node := "node-a", vcpus_used := 4, vcpus_total := 8,
    memory_used_mb := 100, memory_total_mb := 200, disk_used_gb := 10,
    disk_total_gb := 100, instances := 1 }

/-- Concrete two-node stream, two samples per node, timestamps increasing. -/
def clusterDf : List Sample :=
  [{ timestamp := 1, node := "node-a", vcpus_used := 7, vcpus_total := 8,
     memory_used_mb := 100, memory_total_mb := 200, disk_used_gb := 10,
     disk_total_gb := 100, instances := 1 },
   { timestamp := 2, node := "node-b", vcpus_used := 2, vcpus_total := 8,
     memory_used_mb := 50, memory_total_mb := 200, disk_used_gb := 5,
     disk_total_gb := 100, instances := 1 },
   { timestamp := 3, node := "node-a", vcpus_used := 6, vcpus_total := 8,
     memory_used_mb := 120, memory_total_mb := 200, disk_used_gb := 12,
     disk_total_gb := 100, instances := 2 },
   { timestamp := 4, node := "node-b", vcpus_used := 3, vcpus_total := 8,
     memory_used_mb := 60, memory_total_mb := 200, disk_used_gb := 6,
     disk_total_gb := 100, instances := 1 }]

/-- Ten rows of a constant metric column with no missing value. -/
def constRows : List (Option ℚ) :=
  [some 50, some 50, some 50, some 50, some 50,
   some 50, some 50, some 50, some 50, some 50]

/-- Two concrete hourly buckets with no gaps. -/
def bucketsTwo : List HourBucket :=
  [{ cpu_utilization := some 10, memory_utilization := some 20,
     disk_utilization := some 30 },
   { cpu_utilization := some 20, memory_utilization := some 30,
     disk_utilization := some 40 }]

/-- One-node resampled series for the C9 witness. -/
def seriesOne : List (String × List HourBucket) := [("node-a", bucketsTwo)]

/-- A three-bucket series with a middle bucket holding no samples. -/
def gapBuckets : List HourBucket :=
  [{ cpu_utilization := some 10, memory_utilization := some 10,
     disk_utilization := some 10 },
   { cpu_utilization := none, memory_utilization := none,
     disk_utilization := none },
   { cpu_utilization := some 30, memory_utilization := some 30,
     disk_utilization := some 30 }]

/-- One-node resampled series containing the gapped buckets. -/
def seriesGap : List (String × List HourBucket) := [("node-a", gapBuckets)]

example : utilizationPct 4 8 = .fin 50 := by
  norm_num [utilizationPct, pfDiv, pfMul, pfFillna0]
example : utilizationPct 4 0 = .inf true := by
  norm_num [utilizationPct, pfDiv, pfMul, pfFillna0]
example : utilizationPct 0 0 = .fin 0 := by
  norm_num [utilizationPct, pfDiv, pfMul, pfFillna0]
example : mape [(0, 50), (10, 10)] = .inf true := by
  norm_num [mape, pfMean, pfSum, pfDiv, pfMul, pfAdd, pfAbs]

/-- Case analysis of the shared utilization formula: the exact ratio when
the total is nonzero, `0` when both used and total are zero (the NaN of
`0 / 0` is filled), and a signed infinity when the total is zero but the
used value is not (pandas `fillna` leaves infinity alone). -/
theorem utilizationPct_cases (u t : ℚ) :
    (t ≠ 0 → utilizationPct u t = .fin (u / t * 100)) ∧
    (t = 0 → u = 0 → utilizationPct u t = .fin 0) ∧
    (t = 0 → u ≠ 0 → utilizationPct u t = .inf (decide (0 < u))) := by
  refine ⟨fun ht => ?_, fun ht hu => ?_, fun ht hu => ?_⟩
  · norm_num [utilizationPct, pfDiv, pfMul, pfFillna0, ht]
  · norm_num [utilizationPct, pfDiv, pfMul, pfFillna0, ht, hu]
  · norm_num [utilizationPct, pfDiv, pfMul, pfFillna0, ht, hu]

/-- C1 counterexample: the claim says every utilization is `0` whenever the
corresponding total is `0`, for every value of the used field.  At a sample
with `vcpus_total = 0` and `vcpus_used = 4`, pandas computes
`4 / 0 = +inf`, and `fillna(0)` does not replace infinity, so the derived
`cpu_utilization` is `+inf`, not `0`. -/
theorem c1_zero_total_counterexample :
    cpu_utilization zeroTotalSample = PFloat.inf true ∧
    PFloat.inf true ≠ PFloat.fin 0 := by
  constructor
  · norm_num [cpu_utilization, zeroTotalSample, utilizationPct, pfDiv, pfMul, pfFillna0]
  · intro h
    cases h

/-- C1 (amended): each derived utilization equals `used / total * 100` when
the total is nonzero; when the total is `0` it is `0` only if the used
field is also `0` (the `0 / 0` NaN is filled with `0`), and otherwise it is
a signed infinity. -/
theorem c1_utilization_amended (s : Sample) :
    (s.vcpus_total ≠ 0 →
      cpu_utilization s = .fin (s.vcpus_used / s.vcpus_total * 100)) ∧
    (s.vcpus_total = 0 → s.vcpus_used = 0 → cpu_utilization s = .fin 0) ∧
    (s.vcpus_total = 0 → s.vcpus_used ≠ 0 →
      cpu_utilization s = .inf (decide (0 < s.vcpus_used))) ∧
    (s.memory_total_mb ≠ 0 →
      memory_utilization s = .fin (s.memory_used_mb / s.memory_total_mb * 100)) ∧
    (s.memory_total_mb = 0 → s.memory_used_mb = 0 → memory_utilization s = .fin 0) ∧
    (s.memory_total_mb = 0 → s.memory_used_mb ≠ 0 →
      memory_utilization s = .inf (decide (0 < s.memory_used_mb))) ∧
    (s.disk_total_gb ≠ 0 →
      disk_utilization s = .fin (s.disk_used_gb / s.disk_total_gb * 100)) ∧
    (s.disk_total_gb = 0 → s.disk_used_gb = 0 → disk_utilization s = .fin 0) ∧
    (s.disk_total_gb = 0 → s.disk_used_gb ≠ 0 →
      disk_utilization s = .inf (decide (0 < s.disk_used_gb))) := by
  obtain ⟨hc1, hc2, hc3⟩ := utilizationPct_cases s.vcpus_used s.vcpus_total
  obtain ⟨hm1, hm2, hm3⟩ := utilizationPct_cases s.memory_used_mb s.memory_total_mb
  obtain ⟨hd1, hd2, hd3⟩ := utilizationPct_cases s.disk_used_gb s.disk_total_gb
  exact ⟨hc1, hc2, hc3, hm1, hm2, hm3, hd1, hd2, hd3⟩

/-- Witness for the amended C1 at a concrete sample with nonzero CPU total. -/
theorem c1_utilization_amended_witness :
    okSample.vcpus_total ≠ 0 ∧ cpu_utilization okSample = PFloat.fin 50 := by
  refine ⟨by norm_num [okSample], ?_⟩
  have h := (c1_utilization_amended okSample).1 (by norm_num [okSample])
  rw [h]
  norm_num [okSample]

/-- C2: the in-sample MAPE of `forecast_metric` has no guard for a zero
actual value.  At the merged point set `[(y, forecast)] = [(0, 50), (10, 10)]`
the first point contributes `|(0 - 50) / 0| = +inf`, which propagates
through `np.mean` and the final scaling, so the reported MAPE is `+inf`
rather than the zero point being skipped or the MAPE reported unavailable. -/
theorem c2_mape_zero_actual_unguarded :
    mape [(0, 50), (10, 10)] = PFloat.inf true := by
  norm_num [mape, pfMean, pfSum, pfDiv, pfMul, pfAdd, pfAbs]

/-- Overall risk as a function of the three per-metric risk tiers: it is
`High` exactly when some tier is `High`, `Low` exactly when all three are
`Low`, and in general the maximum severity of the three. -/
theorem overall_risk_cases (c m d : Risk) :
    (overall_risk c m d = .High ↔ (c = .High ∨ m = .High ∨ d = .High)) ∧
    (overall_risk c m d = .Low ↔ (c = .Low ∧ m = .Low ∧ d = .Low)) ∧
    riskSeverity (overall_risk c m d) =
      max (max (riskSeverity c) (riskSeverity m)) (riskSeverity d) := by
  cases c <;> cases m <;> cases d <;> decide

/-- C3: for every node row of the node summary (its three per-metric risks
computed by `riskOf` from the mean utilizations), the overall risk is
`High` iff at least one per-metric risk is `High`, `Low` iff all three are
`Low`, and equals the maximum severity of the three under
High over Medium over Low. -/
theorem c3_overall_risk (cpuMean memMean diskMean : ℚ) :
    (overall_risk (riskOf cpuMean) (riskOf memMean) (riskOf diskMean) = .High ↔
      (riskOf cpuMean = .High ∨ riskOf memMean = .High ∨ riskOf diskMean = .High)) ∧
    (overall_risk (riskOf cpuMean) (riskOf memMean) (riskOf diskMean) = .Low ↔
      (riskOf cpuMean = .Low ∧ riskOf memMean = .Low ∧ riskOf diskMean = .Low)) ∧
    riskSeverity (overall_risk (riskOf cpuMean) (riskOf memMean) (riskOf diskMean)) =
      max (max (riskSeverity (riskOf cpuMean)) (riskSeverity (riskOf memMean)))
        (riskSeverity (riskOf diskMean)) :=
  overall_risk_cases (riskOf cpuMean) (riskOf memMean) (riskOf diskMean)

/-- C4: per (node, metric) pair the recommendation generator emits at most
one recommendation (the result is an `Option`), the severity is decided by
the stated priority chain, nothing is emitted when no threshold is
crossed, and a series whose maximum is exactly `95` gets exactly one
`Critical` recommendation. -/
theorem c4_recommendation_priority (l : List ℚ) :
    (recOfSeries l = some .Critical ↔ seriesMax l > 90) ∧
    (recOfSeries l = some .High ↔ (seriesMax l ≤ 90 ∧ seriesMax l > 80)) ∧
    (recOfSeries l = some .Medium ↔ (seriesMax l ≤ 80 ∧ listMean l > 70)) ∧
    (recOfSeries l = none ↔ (seriesMax l ≤ 80 ∧ listMean l ≤ 70)) ∧
    (seriesMax l = 95 → recOfSeries l = some .Critical) := by
  unfold recOfSeries
  split_ifs with h1 h2 h3 <;>
    refine ⟨?_, ?_, ?_, ?_, ?_⟩ <;> simp_all <;> first | linarith | (intro h; linarith)

/-- Witness for C4: the series `[50, 95, 70]` has maximum `95` and receives
exactly the single `Critical` recommendation. -/
theorem c4_recommendation_priority_witness :
    seriesMax [50, 95, 70] = 95 ∧ recOfSeries [50, 95, 70] = some Severity.Critical := by
  have h : seriesMax [50, 95, 70] = 95 := by
    norm_num [seriesMax, List.foldl, max_def]
  exact ⟨h, (c4_recommendation_priority [50, 95, 70]).2.2.2.2 h⟩

/-- Mean of a constant list is that constant. -/
theorem listMean_replicate (k : ℕ) (c : ℚ) (hk : k ≠ 0) :
    listMean (List.replicate k c) = c := by
  have hk' : (k : ℚ) ≠ 0 := Nat.cast_ne_zero.mpr hk
  simp [listMean, List.sum_replicate, nsmul_eq_mul]
  field_simp

/-- Sample variance of a constant window of at least two elements is zero. -/
theorem sampleVar?_replicate (k : ℕ) (c : ℚ) (hk : 2 ≤ k) :
    sampleVar? (List.replicate k c) = some 0 := by
  have hk0 : k ≠ 0 := by omega
  have hlen : ¬((List.replicate k c).length ≤ 1) := by
    simp [List.length_replicate]; omega
  simp [sampleVar?, hlen, List.map_replicate, listMean_replicate k c hk0,
    List.sum_replicate]
  omega

/-- C5: a constant utilization series of two or more samples produces no
anomalies — every rolling window is itself constant, so the rolling mean
equals the value and the rolling standard deviation is zero (or NaN at the
first sample), and the value never leaves the two-sigma band. -/
theorem c5_constant_series_no_anomalies (n : ℕ) (c : ℚ) (hn : 2 ≤ n) :
    anomalousIndices (List.replicate n c) = [] := by
  unfold anomalousIndices
  simp only [List.length_replicate]
  rw [List.filter_eq_nil_iff]
  intro i hi
  rw [List.mem_range] at hi
  have hval : (List.replicate n c).getD i 0 = c := by
    rw [List.getD_eq_getElem?_getD, List.getElem?_replicate, if_pos hi]
    rfl
  have hw : rollingWindow (List.replicate n c) (min 24 n) i
      = List.replicate (min (i + 1) n - (i + 1 - min 24 n)) c := by
    simp [rollingWindow, List.take_replicate, List.drop_replicate]
  rw [hval, hw]
  set k := min (i + 1) n - (i + 1 - min 24 n) with hkdef
  have hk1 : 1 ≤ k := by omega
  rcases le_or_lt k 1 with h1 | h2
  · have hvar : sampleVar? (List.replicate k c) = none := by
      simp [sampleVar?, List.length_replicate, h1]
    rw [hvar]
    simp [isAnomaly]
  · rw [listMean_replicate k c (by omega), sampleVar?_replicate k c h2]
    simp [isAnomaly]

/-- Witness for C5: the constant series of five samples at `50` yields an
empty anomaly list. -/
theorem c5_constant_series_no_anomalies_witness :
    2 ≤ 5 ∧ anomalousIndices (List.replicate 5 (50 : ℚ)) = [] :=
  ⟨by norm_num, c5_constant_series_no_anomalies 5 50 (by norm_num)⟩

set_option maxHeartbeats 2000000 in
/-- Branch-exact description of the per-node recommendation list: which
message is present under which combination of the `if`/`elif`
conditions, plus non-emptiness and freedom from duplicates. -/
theorem nodeRecommendations_syntactic (cpu mem dsk : ℚ) :
    nodeRecommendations cpu mem dsk ≠ [] ∧
    (nodeRecommendations cpu mem dsk).Nodup ∧
    (balancedMsg ∈ nodeRecommendations cpu mem dsk ↔
      (¬cpu > 80 ∧ ¬cpu < 20 ∧ ¬mem > 80 ∧ ¬mem < 20 ∧ ¬dsk > 80 ∧ ¬dsk < 20)) ∧
    (cpuHighMsg ∈ nodeRecommendations cpu mem dsk ↔ cpu > 80) ∧
    (cpuLowMsg ∈ nodeRecommendations cpu mem dsk ↔ (¬cpu > 80 ∧ cpu < 20)) ∧
    (memHighMsg ∈ nodeRecommendations cpu mem dsk ↔ mem > 80) ∧
    (memLowMsg ∈ nodeRecommendations cpu mem dsk ↔ (¬mem > 80 ∧ mem < 20)) ∧
    (diskHighMsg ∈ nodeRecommendations cpu mem dsk ↔ dsk > 80) ∧
    (diskLowMsg ∈ nodeRecommendations cpu mem dsk ↔ (¬dsk > 80 ∧ dsk < 20)) := by
  unfold nodeRecommendations thresholdRecs resourceRecs
  split_ifs <;>
    simp_all [cpuHighMsg, cpuLowMsg, memHighMsg, memLowMsg, diskHighMsg,
      diskLowMsg, balancedMsg]

/-- C6: the three per-resource threshold checks are independent — each
over-80 message is present iff that resource is above 80 percent, each
under-20 message iff below 20 percent — the well-balanced message appears
exactly when none of the six checks fired, the list is never empty, and no
message is duplicated for the same resource and node. -/
theorem c6_capacity_recommendations (cpu mem dsk : ℚ) :
    nodeRecommendations cpu mem dsk ≠ [] ∧
    (nodeRecommendations cpu mem dsk).Nodup ∧
    (cpuHighMsg ∈ nodeRecommendations cpu mem dsk ↔ cpu > 80) ∧
    (cpuLowMsg ∈ nodeRecommendations cpu mem dsk ↔ cpu < 20) ∧
    (memHighMsg ∈ nodeRecommendations cpu mem dsk ↔ mem > 80) ∧
    (memLowMsg ∈ nodeRecommendations cpu mem dsk ↔ mem < 20) ∧
    (diskHighMsg ∈ nodeRecommendations cpu mem dsk ↔ dsk > 80) ∧
    (diskLowMsg ∈ nodeRecommendations cpu mem dsk ↔ dsk < 20) ∧
    (balancedMsg ∈ nodeRecommendations cpu mem dsk ↔
      ¬(cpu > 80 ∨ cpu < 20 ∨ mem > 80 ∨ mem < 20 ∨ dsk > 80 ∨ dsk < 20)) := by
  obtain ⟨h1, h2, hb, hch, hcl, hmh, hml, hdh, hdl⟩ :=
    nodeRecommendations_syntactic cpu mem dsk
  refine ⟨h1, h2, hch, ?_, hmh, ?_, hdh, ?_, ?_⟩
  · rw [hcl]
    exact ⟨fun h => h.2, fun h => ⟨by linarith, h⟩⟩
  · rw [hml]
    exact ⟨fun h => h.2, fun h => ⟨by linarith, h⟩⟩
  · rw [hdl]
    exact ⟨fun h => h.2, fun h => ⟨by linarith, h⟩⟩
  · rw [hb]
    simp only [not_or]

/-- Witness for C6 at a node with high CPU: the add-CPU-capacity message is
emitted. -/
theorem c6_capacity_recommendations_witness :
    (85 : ℚ) > 80 ∧ cpuHighMsg ∈ nodeRecommendations 85 50 50 :=
  ⟨by norm_num, (c6_capacity_recommendations 85 50 50).2.2.1.mpr (by norm_num)⟩

/-- Witness for C3 at concrete mean utilizations (85, 50, 50): the overall
risk is High because the CPU risk is High. -/
theorem c3_overall_risk_witness :
    overall_risk (riskOf 85) (riskOf 50) (riskOf 50) = Risk.High :=
  (c3_overall_risk 85 50 50).1.mpr (Or.inl (by norm_num [riskOf]))

/-- In a list whose timestamps are pairwise nondecreasing in list order,
the last element has the maximal timestamp. -/
theorem pairwise_le_getLast? (f : Sample → ℤ) :
    ∀ l : List Sample, l.Pairwise (fun a b => f a ≤ f b) →
      ∀ s, l.getLast? = some s → ∀ a ∈ l, f a ≤ f s := by
  intro l
  induction l with
  | nil => intro _ s hs; simp at hs
  | cons x xs ih =>
    intro hp s hs a ha
    rcases List.mem_cons.mp ha with rfl | ha
    · cases xs with
      | nil =>
        rw [List.getLast?_singleton] at hs
        cases hs
        exact le_refl _
      | cons y ys =>
        rw [List.getLast?_cons_cons] at hs
        have hsm : s ∈ y :: ys := List.mem_of_mem_getLast? (by rw [hs]; rfl)
        exact (List.pairwise_cons.mp hp).1 s hsm
    · cases xs with
      | nil => cases ha
      | cons y ys =>
        rw [List.getLast?_cons_cons] at hs
        exact ih (List.pairwise_cons.mp hp).2 s hs a ha

/-- Every name in `nodesOf df` is the node of some sample of `df`. -/
theorem exists_sample_of_mem_nodes (df : List Sample) :
    ∀ n ∈ nodesOf df, ∃ s ∈ df, s.node = n := by
  intro n hn
  rw [nodesOf, List.mem_dedup, List.mem_map] at hn
  exact hn

/-- Applying `Sample.node` to the groupby-last rows returns exactly the
keys: the latest-per-node set has exactly one row per distinct node. -/
theorem lastPerNode_map_node (df : List Sample) :
    ∀ ns : List String, (∀ n ∈ ns, ∃ s ∈ df, s.node = n) →
      ((ns.filterMap fun n => (df.filter fun t => t.node == n).getLast?).map
        Sample.node) = ns := by
  intro ns
  induction ns with
  | nil => simp
  | cons n ns ih =>
    intro h
    obtain ⟨s, hs, hsn⟩ := h n (List.mem_cons_self n ns)
    have hmemf : s ∈ df.filter fun t => t.node == n :=
      List.mem_filter.mpr ⟨hs, by simp [hsn]⟩
    have hne : (df.filter fun t => t.node == n) ≠ [] := List.ne_nil_of_mem hmemf
    obtain ⟨g, hg⟩ := Option.isSome_iff_exists.mp (List.getLast?_isSome.mpr hne)
    have hgf : g ∈ df.filter fun t => t.node == n :=
      List.mem_of_mem_getLast? (by rw [hg]; rfl)
    have hgn : g.node = n := by simpa using (List.mem_filter.mp hgf).2
    rw [List.filterMap_cons, hg]
    simp only [List.map_cons, hgn]
    rw [ih fun m hm => h m (List.mem_cons_of_mem n hm)]

/-- C7: the cluster utilizations of the capacity analysis are the spec
formulas `sum(used) / sum(total) * 100`, rounded to two decimals, over the
groupby-last row set, which contains exactly one sample per distinct node,
namely a sample of that node with maximal timestamp (given that the loaded
sample stream is in nondecreasing timestamp order). -/
theorem c7_cluster_utilization (df : List Sample)
    (hsorted : df.Pairwise fun a b => a.timestamp ≤ b.timestamp) :
    ((lastPerNode df).map Sample.node = nodesOf df) ∧
    (∀ s ∈ lastPerNode df, s ∈ df ∧
      ∀ t ∈ df, t.node = s.node → t.timestamp ≤ s.timestamp) ∧
    clusterCpuUtilization df = specClusterCpu (lastPerNode df) ∧
    clusterMemoryUtilization df = specClusterMem (lastPerNode df) ∧
    clusterDiskUtilization df = specClusterDisk (lastPerNode df) := by
  refine ⟨lastPerNode_map_node df (nodesOf df) (exists_sample_of_mem_nodes df),
    ?_, rfl, rfl, rfl⟩
  intro s hs
  rw [lastPerNode, List.mem_filterMap] at hs
  obtain ⟨n, hn, hg⟩ := hs
  have hsf : s ∈ df.filter fun t => t.node == n :=
    List.mem_of_mem_getLast? (by rw [hg]; rfl)
  have hsdf : s ∈ df := (List.mem_filter.mp hsf).1
  have hsn : s.node = n := by simpa using (List.mem_filter.mp hsf).2
  refine ⟨hsdf, fun t ht htn => ?_⟩
  have htf : t ∈ df.filter fun u => u.node == n :=
    List.mem_filter.mpr ⟨ht, by simp [htn, hsn]⟩
  have hpf : (df.filter fun u => u.node == n).Pairwise
      fun a b => a.timestamp ≤ b.timestamp :=
    List.Pairwise.sublist (List.filter_sublist df) hsorted
  exact pairwise_le_getLast? Sample.timestamp _ hpf s hg t htf

/-- Witness for C7 at the concrete sorted stream `clusterDf`. -/
theorem c7_cluster_utilization_witness :
    (clusterDf.Pairwise fun a b => a.timestamp ≤ b.timestamp) ∧
    (((lastPerNode clusterDf).map Sample.node = nodesOf clusterDf) ∧
      (∀ s ∈ lastPerNode clusterDf, s ∈ clusterDf ∧
        ∀ t ∈ clusterDf, t.node = s.node → t.timestamp ≤ s.timestamp) ∧
      clusterCpuUtilization clusterDf = specClusterCpu (lastPerNode clusterDf) ∧
      clusterMemoryUtilization clusterDf = specClusterMem (lastPerNode clusterDf) ∧
      clusterDiskUtilization clusterDf = specClusterDisk (lastPerNode clusterDf)) :=
  ⟨by decide, c7_cluster_utilization clusterDf (by decide)⟩

/-- C8: the forecasting engine fits a model for a (node, metric) pair iff
the node has at least 10 rows and at least 5 points survive dropping
missing values and the three-sigma outlier rejection; a pair below either
threshold yields no forecast (the pair is skipped, not an error), and a
fitted forecast is the fit of exactly the surviving points. -/
theorem c8_forecast_gating {α : Type} (fit : List ℚ → α) (rows : List (Option ℚ)) :
    ((forecast_metric fit rows).isSome ↔
      10 ≤ rows.length ∧ 5 ≤ (inlierPoints rows).length) ∧
    (∀ y, forecast_metric fit rows = some y → y = fit (inlierPoints rows)) := by
  unfold forecast_metric prepare_prophet_data
  split_ifs with h1 h2 <;> constructor <;> simp_all

/-- Witness for C8: ten constant points pass both thresholds and produce a
forecast. -/
theorem c8_forecast_gating_witness :
    (10 ≤ constRows.length ∧ 5 ≤ (inlierPoints constRows).length) ∧
    (forecast_metric id constRows).isSome := by
  have hpre : 10 ≤ constRows.length ∧ 5 ≤ (inlierPoints constRows).length := by
    constructor
    · norm_num [constRows]
    · norm_num [constRows, inlierPoints, keepInlier, sampleVar?, listMean,
        List.filterMap_cons, List.filter_cons]
  exact ⟨hpre, (c8_forecast_gating id constRows).1.mpr hpre⟩

/-- A node whose bucket series passes the more-than-one-bucket guard gets
its trend entry into the trend map. -/
theorem trend_mem_of_two_buckets (series : List (String × List HourBucket))
    (n : String) (bs : List HourBucket) (hmem : (n, bs) ∈ series)
    (hlen : 2 ≤ bs.length) :
    (n, trendOf bs) ∈ generate_time_series_analysis series := by
  simp only [generate_time_series_analysis, List.mem_filterMap]
  exact ⟨(n, bs), hmem, by rw [if_pos (by omega : 1 < bs.length)]⟩

/-- C9: a node appears in the trend map iff it has an entry in the hourly
resampled series with at least two buckets; a node with two or more
buckets gets a trend entry whose `data_points` is the bucket count, and a
node all of whose series have fewer than two buckets is absent from the
map (skipped, not mapped to a zero slope). -/
theorem c9_trend_gating (series : List (String × List HourBucket)) :
    (∀ n : String, (∃ t, (n, t) ∈ generate_time_series_analysis series) ↔
      ∃ bs, (n, bs) ∈ series ∧ 2 ≤ bs.length) ∧
    (∀ n bs, (n, bs) ∈ series → 2 ≤ bs.length →
      (n, trendOf bs) ∈ generate_time_series_analysis series ∧
        (trendOf bs).data_points = bs.length) := by
  constructor
  · intro n
    constructor
    · rintro ⟨t, ht⟩
      simp only [generate_time_series_analysis, List.mem_filterMap] at ht
      obtain ⟨⟨m, bs⟩, hmem, hf⟩ := ht
      by_cases hlen : 1 < bs.length
      · rw [if_pos hlen] at hf
        simp only [Option.some.injEq, Prod.mk.injEq] at hf
        exact ⟨bs, hf.1 ▸ hmem, by omega⟩
      · rw [if_neg hlen] at hf
        exact absurd hf (by simp)
    · rintro ⟨bs, hmem, hlen⟩
      exact ⟨trendOf bs, trend_mem_of_two_buckets series n bs hmem hlen⟩
  · intro n bs hmem hlen
    exact ⟨trend_mem_of_two_buckets series n bs hmem hlen, rfl⟩

/-- Witness for C9: a node with two buckets is present in the trend map
with `data_points = 2`. -/
theorem c9_trend_gating_witness :
    (("node-a", bucketsTwo) ∈ seriesOne ∧ 2 ≤ bucketsTwo.length) ∧
    (("node-a", trendOf bucketsTwo) ∈ generate_time_series_analysis seriesOne ∧
      (trendOf bucketsTwo).data_points = bucketsTwo.length) := by
  have h1 : ("node-a", bucketsTwo) ∈ seriesOne := by simp [seriesOne]
  have h2 : 2 ≤ bucketsTwo.length := by norm_num [bucketsTwo]
  exact ⟨⟨h1, h2⟩, (c9_trend_gating seriesOne).2 "node-a" bucketsTwo h1 h2⟩

/-- C10: the trend map entry for a node fits the least-squares line on the
bucket series with every missing bucket replaced by `0` (the `fillna(0)` call of the source), not with the gap excluded; on the concrete gapped series
`[10, gap, 30]` the reported slope is the slope `10` of `[10, 0, 30]`,
which differs from the slope `20` of the gap-excluded series `[10, 30]`. -/
theorem c10_gap_fill_zero :
    (∀ (series : List (String × List HourBucket)) (n : String)
      (bs : List HourBucket), (n, bs) ∈ series → 2 ≤ bs.length →
      ∃ t, (n, t) ∈ generate_time_series_analysis series ∧
        t.cpu_trend = olsSlope (bs.map fun b => b.cpu_utilization.getD 0) ∧
        t.memory_trend = olsSlope (bs.map fun b => b.memory_utilization.getD 0) ∧
        t.disk_trend = olsSlope (bs.map fun b => b.disk_utilization.getD 0)) ∧
    olsSlope (gapBuckets.map fun b => b.cpu_utilization.getD 0) = 10 ∧
    olsSlope (gapBuckets.filterMap fun b => b.cpu_utilization) = 20 := by
  have hr3 : List.range 3 = [0, 1, 2] := rfl
  have hr2 : List.range 2 = [0, 1] := rfl
  refine ⟨?_, ?_, ?_⟩
  · intro series n bs hmem hlen
    exact ⟨trendOf bs, trend_mem_of_two_buckets series n bs hmem hlen,
      rfl, rfl, rfl⟩
  · norm_num [gapBuckets, olsSlope, hr3, List.zip, List.zipWith]
  · norm_num [gapBuckets, olsSlope, hr2, List.zip, List.zipWith,
      List.filterMap_cons]

/-- Witness for C10 at the gapped series. -/
theorem c10_gap_fill_zero_witness :
    (("node-a", gapBuckets) ∈ seriesGap ∧ 2 ≤ gapBuckets.length) ∧
    ∃ t, ("node-a", t) ∈ generate_time_series_analysis seriesGap ∧
      t.cpu_trend = olsSlope (gapBuckets.map fun b => b.cpu_utilization.getD 0) ∧
      t.memory_trend = olsSlope (gapBuckets.map fun b => b.memory_utilization.getD 0) ∧
      t.disk_trend = olsSlope (gapBuckets.map fun b => b.disk_utilization.getD 0) := by
  have h1 : ("node-a", gapBuckets) ∈ seriesGap := by simp [seriesGap]
  have h2 : 2 ≤ gapBuckets.length := by norm_num [gapBuckets]
  exact ⟨⟨h1, h2⟩, c10_gap_fill_zero.1 seriesGap "node-a" gapBuckets h1 h2⟩
